import Mathlib

/-!
Verification of the E3 Achievement order-intake backend
(`src/e3-server-backend.js`), a Node/Express server with a single
`POST /api/submit-order` endpoint: rate limiting, payload validation,
order-number generation, composition of two notification e-mails
(business copy and customer copy, each with a plain-text and an HTML
body), and an all-or-nothing dual dispatch.

The JavaScript is embedded shallowly:
- possibly-absent / non-numeric JSON fields become `Option` values
  (`none` plays the role of `undefined`);
- JS string truthiness (`''` and `undefined` are falsy) is `truthyS`;
- `x.toFixed(2)` on a possibly-undefined value is `jsToFixed2`,
  returning `Except` because JS throws a `TypeError` when `x` is
  `undefined`;
- the handler body runs inside `try/catch`, so composition is
  `Except`-valued and the catch branch maps any error to the generic
  500 response;
- `Math.random().toString(36)` is modelled by the list of base-36
  digits of the random fraction (`[]` for the value 0, matching the
  `"0"` rendering); `Date.now()` is an arbitrary `Nat` timestamp;
- the two `transporter.sendMail` calls are parameters of the handler
  (`Except String Unit` outcomes), `Promise.all` being refusal on the
  first failure;
- `new Date(x).toLocaleString()` is locale-dependent; it is modelled
  by a fixed total function (`dateToLocaleString`), which is all the
  claims need.
-/

namespace E3

/-- JS truthiness for string-or-undefined values: `undefined` and `''`
are falsy, every other string is truthy. -/
def truthyS : Option String → Bool
  | none => false
  | some s => !(s == "")

/-- Template interpolation of a string-or-undefined value: JS renders
`undefined` as the text `"undefined"`. -/
def jsStr : Option String → String
  | none => "undefined"
  | some s => s

/-- Embedding of the JS idiom `v || dflt` for a string-or-undefined
`v`: the default is taken exactly when `v` is falsy. -/
def jsOr (v : Option String) (dflt : String) : String :=
  if truthyS v then jsStr v else dflt

/-- Rounded cent value of a rational amount: the integer nearest to
`100 * q` (ties upward), computed with integer floor division directly
on numerator and denominator so that it evaluates inside the kernel. -/
def cents (q : ℚ) : ℤ :=
  Int.fdiv (200 * q.num + (q.den : ℤ)) (2 * (q.den : ℤ))

/-- Decimal formatting with two fraction digits, the embedding of
`Number.prototype.toFixed(2)` on a defined number. The numeric value is
modelled as a rational; rounding is to the nearest cent (binary-double
rounding artifacts are not modelled — no claim depends on them). -/
def toFixed2 (q : ℚ) : String :=
  let c : ℤ := cents q
  let a : ℕ := c.natAbs
  (if c < 0 then "-" else "")
    ++ toString (a / 100)
    ++ "."
    ++ (if a % 100 < 10 then "0" else "")
    ++ toString (a % 100)

/-- Message produced by a JS `TypeError` when calling a method of
`undefined`; the single error value thrown during composition. -/
def typeErrorMsg : String :=
  "TypeError: Cannot read properties of undefined (reading toFixed)"

/-- Embedding of `x.toFixed(2)` where `x` may be `undefined`: JS throws
a `TypeError` on `undefined.toFixed`, hence the `Except`. -/
def jsToFixed2 : Option ℚ → Except String String
  | none => .error typeErrorMsg
  | some q => .ok (toFixed2 q)

/-- Template interpolation of a number-or-undefined value (used for
`item.quantity`, which is interpolated raw, never `toFixed`ed).
Modelled abstractly: integers render as their decimal numeral,
`undefined` as `"undefined"`; the exact JS decimal rendering of
non-integer doubles is not modelled (no claim depends on it). -/
def interpNum : Option ℚ → String
  | none => "undefined"
  | some q => if q.den = 1 then toString q.num else toString q

/-- Embedding of `new Date(orderDate).toLocaleString()`. Modelled
abstractly: the rendering is locale-dependent but is a fixed function
of the field — identity on a present string, `"Invalid Date"` when the
field is absent (as in JS for `new Date(undefined)`). -/
def dateToLocaleString : Option String → String
  | none => "Invalid Date"
  | some s => s

/-- Customer object of the request payload. Required-by-validation
fields are still `Option`: validation, not the type, enforces their
presence. -/
structure Customer where
  name : Option String
  email : Option String
  phone : Option String
  address : Option String
  studentName : Option String
  specialInstructions : Option String
deriving DecidableEq, Repr

/-- One line item of the request payload. `quantity`, `price` and
`subtotal` are never validated, so they may be absent. -/
structure LineItem where
  name : String
  quantity : Option ℚ
  price : Option ℚ
  subtotal : Option ℚ
deriving DecidableEq, Repr

/-- Raw request body of `POST /api/submit-order`. -/
structure Payload where
  customer : Option Customer
  items : Option (List LineItem)
  total : Option ℚ
  orderDate : Option String
deriving DecidableEq, Repr

/-- One nodemailer envelope (`from`/`to`/`subject`/`text`/`html`).
`fromAddr`/`toAddr` stand for the JS `from`/`to` fields (both Lean
keywords); `fromAddr` carries `process.env.EMAIL_USER`, possibly unset. -/
structure EmailOptions where
  fromAddr : Option String
  toAddr : String
  subject : String
  text : String
  html : String
deriving DecidableEq, Repr

/-- The two envelopes composed for one order. -/
structure ComposedMessages where
  business : EmailOptions
  customer : EmailOptions
deriving DecidableEq, Repr

/-! ## Order number generation

`const orderNumber =
  \x60E3-${Date.now()}-${Math.random().toString(36).substr(2, 9).toUpperCase()}\x60`
-/

/-- The base-36 digit alphabet used by `Number.prototype.toString(36)`. -/
def base36Alphabet : String := "0123456789abcdefghijklmnopqrstuvwxyz"

/-- Lower-case base-36 digit character for a digit value. -/
def base36Char (d : Fin 36) : Char :=
  base36Alphabet.toList.getD d.val '0'

/-- Rendering of `Math.random().toString(36)`: the random value lies in
`[0, 1)` and is identified with the (finite) list of base-36 digits of
its fractional expansion; the value 0 (empty digit list) renders as
`"0"`, every other value as `"0."` followed by its digits. -/
def jsRandToString36 (digits : List (Fin 36)) : String :=
  if digits.isEmpty then "0"
  else "0." ++ String.mk (digits.map base36Char)

/-- Embedding of `.substr(2, 9).toUpperCase()` applied to the rendered
random value: drop the two characters `0.`, keep at most nine
characters, upper-case them. -/
def randSuffix (digits : List (Fin 36)) : String :=
  String.mk ((((jsRandToString36 digits).toList.drop 2).take 9).map Char.toUpper)

/-- Embedding of the order-number template
`E3-${Date.now()}-${Math.random().toString(36).substr(2, 9).toUpperCase()}`. -/
def genOrderNumber (ts : ℕ) (digits : List (Fin 36)) : String :=
  "E3-" ++ (toString ts ++ ("-" ++ randSuffix digits))

/-- An upper-case base-36 character: a decimal digit or `A`–`Z`. -/
def isUpperB36 (ch : Char) : Bool :=
  ch.isDigit || ('A' ≤ ch && ch ≤ 'Z')

/-! ## Notification composer

Embedding of the construction of `itemsList`, `businessEmailOptions`
and `customerEmailOptions` (source lines 53–249). Each template
literal becomes a concatenation of its literal parts and interpolated
parts; `x.toFixed(2)` interpolations of unvalidated numbers go through
`jsToFixed2` and make composition `Except`-valued, mirroring the
`TypeError` a missing number raises inside the handler's `try`. -/

/-- Row strings of `items.map(item => ...)` inside `itemsList`: each
row is `${item.quantity}x ${item.name} @ $${item.price.toFixed(2)} =
$${item.subtotal.toFixed(2)}`; the first absent `price`/`subtotal`
throws. -/
def itemRows : List LineItem → Except String (List String)
  | [] => .ok []
  | i :: rest => do
    let p ← jsToFixed2 i.price
    let s ← jsToFixed2 i.subtotal
    let r := interpNum i.quantity ++ "x " ++ i.name ++ " @ $" ++ p ++ " = $" ++ s
    let rs ← itemRows rest
    .ok (r :: rs)

/-- Embedding of `const itemsList = items.map(...).join('\n')`. -/
def itemsList (items : List LineItem) : Except String String := do
  let rs ← itemRows items
  .ok (String.intercalate "\n" rs)

/-- Item rows of the business HTML body:
`items.map(item => ...).join('')` (source lines 133–138). -/
def bizHtmlRows : List LineItem → Except String String
  | [] => .ok ""
  | i :: rest => do
    let p ← jsToFixed2 i.price
    let s ← jsToFixed2 i.subtotal
    let r := "\n            <div class=\"item-row\">\n              <strong>"
      ++ interpNum i.quantity ++ "x " ++ i.name
      ++ "</strong><br>\n              <span style=\"color: #666;\">$"
      ++ p ++ " each = $" ++ s ++ "</span>\n            </div>\n          "
    let rs ← bizHtmlRows rest
    .ok (r ++ rs)

/-- Item rows of the customer HTML body:
`items.map(item => ...).join('')` (source lines 217–222; same markup
as the business rows, two spaces less indentation). -/
def custHtmlRows : List LineItem → Except String String
  | [] => .ok ""
  | i :: rest => do
    let p ← jsToFixed2 i.price
    let s ← jsToFixed2 i.subtotal
    let r := "\n          <div class=\"item-row\">\n            <strong>"
      ++ interpNum i.quantity ++ "x " ++ i.name
      ++ "</strong><br>\n            <span style=\"color: #666;\">$"
      ++ p ++ " each = $" ++ s ++ "</span>\n          </div>\n        "
    let rs ← custHtmlRows rest
    .ok (r ++ rs)

/-- Business plain-text line `Student Entrepreneur: ${customer.studentName || 'N/A'}`. -/
def bizTextStudentLine (c : Customer) : String :=
  "Student Entrepreneur: " ++ jsOr c.studentName "N/A"

/-- Business plain-text line `Phone: ${customer.phone || 'N/A'}`. -/
def bizTextPhoneLine (c : Customer) : String :=
  "Phone: " ++ jsOr c.phone "N/A"

/-- Business plain-text line `Address: ${customer.address || 'N/A'}`. -/
def bizTextAddressLine (c : Customer) : String :=
  "Address: " ++ jsOr c.address "N/A"

/-- Business plain-text section `SPECIAL INSTRUCTIONS:` followed by
`${customer.specialInstructions || 'None'}`. -/
def bizTextSpecialSection (c : Customer) : String :=
  "SPECIAL INSTRUCTIONS:\n" ++ jsOr c.specialInstructions "None"

/-- Business HTML fragment
`${customer.studentName ? ...<p>...</p>... : ''}` (source line 123). -/
def htmlStudentBlock (c : Customer) : String :=
  if truthyS c.studentName then
    "<p><strong>Student Entrepreneur:</strong> " ++ (jsStr c.studentName ++ "</p>")
  else ""

/-- Business HTML fragment `${customer.phone ? ...<p>...</p>... : ''}`
(source line 126). -/
def htmlPhoneBlock (c : Customer) : String :=
  if truthyS c.phone then
    "<p><strong>Phone:</strong> " ++ (jsStr c.phone ++ "</p>")
  else ""

/-- Business HTML fragment `${customer.address ? ...<p>...</p>... : ''}`
(source line 127). -/
def htmlAddressBlock (c : Customer) : String :=
  if truthyS c.address then
    "<p><strong>Address:</strong> " ++ (jsStr c.address ++ "</p>")
  else ""

/-- Business HTML fragment
`${customer.specialInstructions ? ...<div class="section">... : ''}`
(source lines 143–148). -/
def htmlSpecialSection (c : Customer) : String :=
  if truthyS c.specialInstructions then
    "\n      <div class=\"section\">\n        <div class=\"section-title\">📝 Special Instructions</div>\n        <p>"
      ++ (jsStr c.specialInstructions ++ "</p>\n      </div>\n      ")
  else ""

/-- Customer plain-text fragment
`${customer.email ? 'A proof will be provided...' : ''}` (source line 178). -/
def custEmailNote (c : Customer) : String :=
  if truthyS c.email then "A proof will be provided to your email if applicable." else ""

/-- The 39-character `═` separator of the business plain-text body. -/
def eqBar : String := "═══════════════════════════════════════"

/-- The 39-character `─` separator of the business plain-text body. -/
def dashBar : String := "───────────────────────────────────────"

/-- The 45-character `─` separator of the business plain-text body. -/
def longDashBar : String := "─────────────────────────────────────────────"

/-- Business subject tail, everything after the order number:
` from ${customer.name} - $${total.toFixed(2)}`. -/
def bizSubjectAfter (c : Customer) (tf : String) : String :=
  " from " ++ jsStr c.name ++ " - $" ++ tf

/-- Business subject
`New E3 Order #${orderNumber} from ${customer.name} - $${total.toFixed(2)}`. -/
def bizSubject (c : Customer) (tf n : String) : String :=
  "New E3 Order #" ++ (n ++ bizSubjectAfter c tf)

/-- Customer subject `Order Confirmation #${orderNumber} - E3 Achievement`. -/
def custSubject (n : String) : String :=
  "Order Confirmation #" ++ (n ++ " - E3 Achievement")

/-- Business plain-text body after the order number (source lines
66–91); `il` is the joined `itemsList`, `tf` the formatted total. -/
def bizTextAfterNum (c : Customer) (il tf : String) (od : Option String) : String :=
  "\nOrder Date: " ++ dateToLocaleString od ++ "\n\n" ++ eqBar
    ++ "\nCUSTOMER INFORMATION\n" ++ eqBar ++ "\n"
    ++ bizTextStudentLine c
    ++ "\nCustomer Name: " ++ jsStr c.name
    ++ "\nEmail: " ++ jsStr c.email
    ++ "\n" ++ bizTextPhoneLine c
    ++ "\n" ++ bizTextAddressLine c
    ++ "\n\n" ++ eqBar ++ "\nORDER DETAILS\n" ++ eqBar ++ "\n"
    ++ il
    ++ "\n\n" ++ dashBar ++ "\nTOTAL: $" ++ tf ++ "\n" ++ eqBar ++ "\n\n"
    ++ bizTextSpecialSection c
    ++ "\n\n" ++ longDashBar
    ++ "\nThis order was submitted through the E3 Achievement online order form.\n      "

/-- Business plain-text body (`businessEmailOptions.text`). -/
def bizText (c : Customer) (il tf : String) (od : Option String) (n : String) : String :=
  "\nNEW ORDER RECEIVED\n\nOrder Number: " ++ (n ++ bizTextAfterNum c il tf od)

/-- Literal head of the business HTML body, up to and including
`<p>Order #` (source lines 93–113). -/
def bizHtmlPre : String :=
  "\n<!DOCTYPE html>\n<html>\n<head>\n  <style>\n    body \x7b font-family: Arial, sans-serif; line-height: 1.6; color: #333; \x7d\n    .container \x7b max-width: 600px; margin: 0 auto; padding: 20px; \x7d\n    .header \x7b background: linear-gradient(135deg, #ff6b35 0%, #f7931e 100%); color: white; padding: 20px; text-align: center; border-radius: 8px 8px 0 0; \x7d\n    .content \x7b background: #f9f9f9; padding: 20px; border: 1px solid #ddd; \x7d\n    .section \x7b background: white; padding: 15px; margin-bottom: 15px; border-radius: 5px; border-left: 4px solid #ff6b35; \x7d\n    .section-title \x7b font-weight: bold; font-size: 1.1em; margin-bottom: 10px; color: #ff6b35; \x7d\n    .order-items \x7b background: white; padding: 15px; border-radius: 5px; \x7d\n    .item-row \x7b padding: 8px 0; border-bottom: 1px solid #eee; \x7d\n    .total \x7b font-size: 1.3em; font-weight: bold; color: #ff6b35; text-align: right; margin-top: 15px; padding-top: 15px; border-top: 2px solid #ff6b35; \x7d\n    .footer \x7b text-align: center; color: #666; font-size: 0.9em; margin-top: 20px; \x7d\n  </style>\n</head>\n<body>\n  <div class=\"container\">\n    <div class=\"header\">\n      <h1>🎉 New Order Received!</h1>\n      <p>Order #"

/-- Business HTML body after the order number (source lines 113–158);
`bh` is the joined HTML item-row string. -/
def bizHtmlAfterNum (c : Customer) (bh tf : String) (od : Option String) : String :=
  "</p>\n    </div>\n    <div class=\"content\">\n      <div class=\"section\">\n        <div class=\"section-title\">📅 Order Information</div>\n        <p><strong>Order Date:</strong> "
    ++ dateToLocaleString od
    ++ "</p>\n      </div>\n\n      <div class=\"section\">\n        <div class=\"section-title\">👤 Customer Information</div>\n        "
    ++ htmlStudentBlock c
    ++ "\n        <p><strong>Name:</strong> " ++ jsStr c.name
    ++ "</p>\n        <p><strong>Email:</strong> " ++ jsStr c.email
    ++ "</p>\n        " ++ htmlPhoneBlock c
    ++ "\n        " ++ htmlAddressBlock c
    ++ "\n      </div>\n\n      <div class=\"section\">\n        <div class=\"section-title\">🛒 Order Details</div>\n        <div class=\"order-items\">\n          "
    ++ bh
    ++ "\n          <div class=\"total\">TOTAL: $" ++ tf
    ++ "</div>\n        </div>\n      </div>\n\n      "
    ++ htmlSpecialSection c
    ++ "\n\n      <div class=\"footer\">\n        <p>This order was submitted through the E3 Achievement online order form.</p>\n        <p><strong>E3 Achievement</strong> | 331 West Jackson St., Battle Creek</p>\n        <p>📞 269-924-7247 | ✉️ imageinboxe3@gmail.com</p>\n      </div>\n    </div>\n  </div>\n</body>\n</html>\n      "

/-- Business HTML body (`businessEmailOptions.html`). -/
def bizHtml (c : Customer) (bh tf : String) (od : Option String) (n : String) : String :=
  bizHtmlPre ++ (n ++ bizHtmlAfterNum c bh tf od)

/-- Customer plain-text body after the order number (source lines
171–188). -/
def custTextAfterNum (c : Customer) (il tf : String) (od : Option String) : String :=
  "\nOrder Date: " ++ dateToLocaleString od
    ++ "\n\nYour Order:\n" ++ il
    ++ "\n\nTotal: $" ++ tf
    ++ "\n\nWe've received your order and will begin processing it shortly. "
    ++ custEmailNote c
    ++ "\n\nAllow up to 2 weeks for custom orders. Rush orders are available for +$5/item.\n\nIf you have any questions, please contact us:\n📞 269-924-7247\n✉️ imageinboxe3@gmail.com\n\nThank you for supporting E3 Achievement!\nEducation • Entrepreneurship • Empowerment\n      "

/-- Customer plain-text body (`customerEmailOptions.text`). -/
def custText (c : Customer) (il tf : String) (od : Option String) (n : String) : String :=
  "\nThank you for your order!\n\nOrder Number: " ++ (n ++ custTextAfterNum c il tf od)

/-- Literal head of the customer HTML body, up to and including
`<p>Order #` (source lines 190–209). -/
def custHtmlPre : String :=
  "\n<!DOCTYPE html>\n<html>\n<head>\n  <style>\n    body \x7b font-family: Arial, sans-serif; line-height: 1.6; color: #333; \x7d\n    .container \x7b max-width: 600px; margin: 0 auto; padding: 20px; \x7d\n    .header \x7b background: linear-gradient(135deg, #ff6b35 0%, #f7931e 100%); color: white; padding: 30px; text-align: center; border-radius: 8px 8px 0 0; \x7d\n    .content \x7b background: #f9f9f9; padding: 20px; border: 1px solid #ddd; \x7d\n    .order-items \x7b background: white; padding: 15px; margin: 15px 0; border-radius: 5px; \x7d\n    .item-row \x7b padding: 8px 0; border-bottom: 1px solid #eee; \x7d\n    .total \x7b font-size: 1.3em; font-weight: bold; color: #ff6b35; text-align: right; margin-top: 15px; padding-top: 15px; border-top: 2px solid #ff6b35; \x7d\n    .info-box \x7b background: #fff3cd; padding: 15px; border-radius: 5px; border-left: 4px solid #ff6b35; margin: 15px 0; \x7d\n    .footer \x7b text-align: center; color: #666; font-size: 0.9em; margin-top: 20px; \x7d\n  </style>\n</head>\n<body>\n  <div class=\"container\">\n    <div class=\"header\">\n      <h1>Thank You for Your Order!</h1>\n      <p>Order #"

/-- Customer HTML body after the order number (source lines 209–247);
`ch` is the joined HTML item-row string. -/
def custHtmlAfterNum (c : Customer) (ch tf : String) : String :=
  "</p>\n    </div>\n    <div class=\"content\">\n      <p>Hi " ++ jsStr c.name
    ++ ",</p>\n      <p>We've received your order and will begin processing it shortly!</p>\n\n      <div class=\"order-items\">\n        <h3>Your Order:</h3>\n        "
    ++ ch
    ++ "\n        <div class=\"total\">TOTAL: $" ++ tf
    ++ "</div>\n      </div>\n\n      <div class=\"info-box\">\n        <strong>📋 Important Information:</strong><br>\n        • Allow up to 2 weeks for custom orders<br>\n        • Rush orders available for +$5/item<br>\n        • A proof will be provided if applicable\n      </div>\n\n      <p>If you have any questions about your order, please don't hesitate to contact us:</p>\n      <p style=\"text-align: center;\">\n        <strong>📞 269-924-7247</strong><br>\n        <strong>✉️ imageinboxe3@gmail.com</strong>\n      </p>\n\n      <div class=\"footer\">\n        <p><strong>E3 Achievement</strong></p>\n        <p>Education • Entrepreneurship • Empowerment</p>\n        <p>331 West Jackson St., Battle Creek</p>\n      </div>\n    </div>\n  </div>\n</body>\n</html>\n      "

/-- Customer HTML body (`customerEmailOptions.html`). -/
def custHtml (c : Customer) (ch tf n : String) : String :=
  custHtmlPre ++ (n ++ custHtmlAfterNum c ch tf)

/-- Fixed business notification address (the `to` of the business
e-mail, source line 60). -/
def businessAddress : String := "imageinboxe3@gmail.com"

/-- The composer: builds `itemsList` and both envelopes
(`businessEmailOptions`, `customerEmailOptions`) for a validated
payload. `Except`-valued because `.toFixed(2)` on an absent
`price`/`subtotal`/`total` throws; the possible error value is the
same `typeErrorMsg` at every throw site, so the forcing order of the
four binds is observationally the source's evaluation order. -/
def composeAll (envEmailUser : Option String) (c : Customer)
    (items : List LineItem) (total : Option ℚ) (od : Option String)
    (n : String) : Except String ComposedMessages := do
  let il ← itemsList items
  let tf ← jsToFixed2 total
  let bh ← bizHtmlRows items
  let ch ← custHtmlRows items
  .ok { business := { fromAddr := envEmailUser, toAddr := businessAddress,
                      subject := bizSubject c tf n,
                      text := bizText c il tf od n,
                      html := bizHtml c bh tf od n },
        customer := { fromAddr := envEmailUser, toAddr := jsStr c.email,
                      subject := custSubject n,
                      text := custText c il tf od n,
                      html := custHtml c ch tf n } }

/-! ## Intake endpoint (`app.post('/api/submit-order')`) -/

/-- Validation failure message for a missing/incomplete customer
(source line 39). -/
def missingCustomerMsg : String := "Missing required customer information"

/-- Validation failure message for a missing/empty item list (source
line 45). -/
def emptyOrderMsg : String := "No items in order"

/-- Success message of the 200 response (source line 263). -/
def successMsg : String := "Order submitted successfully"

/-- The fixed generic message of the catch-all 500 response (source
line 269). -/
def genericFailureMsg : String :=
  "Failed to submit order. Please try again or contact us directly."

/-- JSON body of a response: the success shape
`\x7b success: true, orderNumber, message \x7d` or the failure shape
`\x7b error \x7d`. -/
inductive RespBody where
  | success (orderNumber message : String)
  | failure (error : String)
deriving DecidableEq, Repr

/-- An HTTP response: status code and JSON body. -/
structure Response where
  status : ℕ
  body : RespBody
deriving DecidableEq, Repr

/-- Outcome of one admitted request: the response sent, and the pair
of envelopes handed to the transport (`none` when no transport
submission was attempted). -/
structure IntakeResult where
  response : Response
  dispatched : Option ComposedMessages
deriving DecidableEq, Repr

/-- The handler body of `app.post('/api/submit-order')` (source lines
33–271). Parameters stand for the handler's free inputs: the
environment (`envEmailUser`), `Date.now()` (`ts`), the random digits,
and the settled outcomes of the two `transporter.sendMail` promises.
Control flow: the two validation checks short-circuit with 400;
composition runs inside `try`, so a `TypeError` from `.toFixed` on an
absent number lands in `catch` as the generic 500 before any dispatch;
`Promise.all` makes any transport failure land in the same `catch`
after dispatch; otherwise the 200 success body is sent. -/
def handleSubmitOrder (envEmailUser : Option String) (p : Payload)
    (ts : ℕ) (digits : List (Fin 36))
    (bizSend custSend : Except String Unit) : IntakeResult :=
  match p.customer with
  | none => ⟨⟨400, .failure missingCustomerMsg⟩, none⟩
  | some c =>
    if truthyS c.name && truthyS c.email then
      match p.items with
      | none => ⟨⟨400, .failure emptyOrderMsg⟩, none⟩
      | some items =>
        if items.isEmpty then ⟨⟨400, .failure emptyOrderMsg⟩, none⟩
        else
          match composeAll envEmailUser c items p.total p.orderDate
              (genOrderNumber ts digits) with
          | .error _ => ⟨⟨500, .failure genericFailureMsg⟩, none⟩
          | .ok msgs =>
            match bizSend, custSend with
            | .ok _, .ok _ =>
              ⟨⟨200, .success (genOrderNumber ts digits) successMsg⟩, some msgs⟩
            | _, _ => ⟨⟨500, .failure genericFailureMsg⟩, some msgs⟩
    else ⟨⟨400, .failure missingCustomerMsg⟩, none⟩

/-! ## Rate gate

The limiter itself is `express-rate-limit`, a dependency whose code is
not part of this repository; only its configuration (source lines
16–20: `windowMs: 15 * 60 * 1000`, `max: 5`, the rejection message)
and its attachment before the handler (line 32) are. Its admission
behaviour is therefore modelled from the spec. -/

/-- The configured window length in milliseconds (source line 17). -/
def rateWindowMs : ℕ := 15 * 60 * 1000

/-- The configured per-identity admission cap (source line 18). -/
def rateMax : ℕ := 5

/-- The configured rejection message (source line 19). -/
def rateLimitMsg : String := "Too many orders submitted, please try again later."

/-- Modelled from the spec: the Rate Gate keeps a per-identity counter
in a fixed-size time bucket; within one window (no rollover) an
attempt increments the counter and is admitted exactly when the
incremented counter is still within the cap. `priorCount` is the
identity's counter before the attempt. -/
def rateAdmit (priorCount : ℕ) : Bool :=
  decide (priorCount + 1 ≤ rateMax)

/-- Modelled from the spec: the limiter middleware runs before the
handler; a rejected attempt is answered 429 with the configured
message and the handler (validator, composer, dispatcher) is not
invoked. The third component records whether the downstream handler
ran. -/
def intakeWithGate (priorCount : ℕ) (envEmailUser : Option String)
    (p : Payload) (ts : ℕ) (digits : List (Fin 36))
    (bizSend custSend : Except String Unit) :
    Response × Option ComposedMessages × Bool :=
  if rateAdmit priorCount then
    let r := handleSubmitOrder envEmailUser p ts digits bizSend custSend
    (r.response, r.dispatched, true)
  else
    (⟨429, .failure rateLimitMsg⟩, none, false)

/-! ## Substring predicates used to state the claims -/

/-- Boolean prefix test on character lists. -/
def prefB : List Char → List Char → Bool
  | [], _ => true
  | _ :: _, [] => false
  | a :: as, b :: bs => a == b && prefB as bs

/-- Boolean infix (contiguous substring) test on character lists. -/
def infB (sub : List Char) : List Char → Bool
  | [] => sub.isEmpty
  | b :: bs => prefB sub (b :: bs) || infB sub bs

/-- Boolean test: `sub` occurs contiguously in `s`. -/
def strContains (s sub : String) : Bool := infB sub.toList s.toList

/-- Propositional form: `sub` occurs contiguously in `s`. -/
def Mentions (s sub : String) : Prop :=
  ∃ a b : List Char, s.data = a ++ (sub.data ++ b)

/-! ## The composer's value on the non-throwing path -/

/-- Formatted value of a numeric field known to be present (the
non-throwing side of `jsToFixed2`). -/
def toFixedF : Option ℚ → String
  | none => ""
  | some q => toFixed2 q

/-- Plain-text item row on the non-throwing path. -/
def itemRowPure (i : LineItem) : String :=
  interpNum i.quantity ++ "x " ++ i.name ++ " @ $" ++ toFixedF i.price
    ++ " = $" ++ toFixedF i.subtotal

/-- Plain-text item rows on the non-throwing path. -/
def itemRowsPure (items : List LineItem) : List String :=
  items.map itemRowPure

/-- Business HTML item row on the non-throwing path. -/
def bizRowPure (i : LineItem) : String :=
  "\n            <div class=\"item-row\">\n              <strong>"
    ++ interpNum i.quantity ++ "x " ++ i.name
    ++ "</strong><br>\n              <span style=\"color: #666;\">$"
    ++ toFixedF i.price ++ " each = $" ++ toFixedF i.subtotal
    ++ "</span>\n            </div>\n          "

/-- Joined business HTML item rows on the non-throwing path. -/
def bizRowsPure : List LineItem → String
  | [] => ""
  | i :: rest => bizRowPure i ++ bizRowsPure rest

/-- Customer HTML item row on the non-throwing path. -/
def custRowPure (i : LineItem) : String :=
  "\n          <div class=\"item-row\">\n            <strong>"
    ++ interpNum i.quantity ++ "x " ++ i.name
    ++ "</strong><br>\n            <span style=\"color: #666;\">$"
    ++ toFixedF i.price ++ " each = $" ++ toFixedF i.subtotal
    ++ "</span>\n          </div>\n        "

/-- Joined customer HTML item rows on the non-throwing path. -/
def custRowsPure : List LineItem → String
  | [] => ""
  | i :: rest => custRowPure i ++ custRowsPure rest

/-- All numeric fields the composer calls `.toFixed(2)` on are present:
every item's `price` and `subtotal`, and the declared `total`. -/
def numericsOk (items : List LineItem) (total : Option ℚ) : Bool :=
  items.all (fun i => i.price.isSome && i.subtotal.isSome) && total.isSome

/-- The composed messages on the non-throwing path. -/
def composedPure (envEmailUser : Option String) (c : Customer)
    (items : List LineItem) (t : ℚ) (od : Option String)
    (n : String) : ComposedMessages :=
  { business := { fromAddr := envEmailUser, toAddr := businessAddress,
                  subject := bizSubject c (toFixed2 t) n,
                  text := bizText c (String.intercalate "\n" (itemRowsPure items)) (toFixed2 t) od n,
                  html := bizHtml c (bizRowsPure items) (toFixed2 t) od n },
    customer := { fromAddr := envEmailUser, toAddr := jsStr c.email,
                  subject := custSubject n,
                  text := custText c (String.intercalate "\n" (itemRowsPure items)) (toFixed2 t) od n,
                  html := custHtml c (custRowsPure items) (toFixed2 t) n } }

/-! ## Supporting lemmas -/

theorem itemRows_eq_ok (items : List LineItem)
    (h : items.all (fun i => i.price.isSome && i.subtotal.isSome) = true) :
    itemRows items = .ok (itemRowsPure items) := by
  induction items with
  | nil => rfl
  | cons i rest ih =>
    simp only [List.all_cons, Bool.and_eq_true] at h
    obtain ⟨⟨hp, hs⟩, hrest⟩ := h
    obtain ⟨p, hp⟩ := Option.isSome_iff_exists.mp hp
    obtain ⟨s, hs⟩ := Option.isSome_iff_exists.mp hs
    simp [itemRows, itemRowsPure, itemRowPure, jsToFixed2, toFixedF, hp, hs,
      ih hrest, List.map_cons, Except.bind]
    rfl

theorem bizHtmlRows_eq_ok (items : List LineItem)
    (h : items.all (fun i => i.price.isSome && i.subtotal.isSome) = true) :
    bizHtmlRows items = .ok (bizRowsPure items) := by
  induction items with
  | nil => rfl
  | cons i rest ih =>
    simp only [List.all_cons, Bool.and_eq_true] at h
    obtain ⟨⟨hp, hs⟩, hrest⟩ := h
    obtain ⟨p, hp⟩ := Option.isSome_iff_exists.mp hp
    obtain ⟨s, hs⟩ := Option.isSome_iff_exists.mp hs
    simp [bizHtmlRows, bizRowsPure, bizRowPure, jsToFixed2, toFixedF, hp, hs,
      ih hrest, Except.bind]
    rfl

theorem custHtmlRows_eq_ok (items : List LineItem)
    (h : items.all (fun i => i.price.isSome && i.subtotal.isSome) = true) :
    custHtmlRows items = .ok (custRowsPure items) := by
  induction items with
  | nil => rfl
  | cons i rest ih =>
    simp only [List.all_cons, Bool.and_eq_true] at h
    obtain ⟨⟨hp, hs⟩, hrest⟩ := h
    obtain ⟨p, hp⟩ := Option.isSome_iff_exists.mp hp
    obtain ⟨s, hs⟩ := Option.isSome_iff_exists.mp hs
    simp [custHtmlRows, custRowsPure, custRowPure, jsToFixed2, toFixedF, hp, hs,
      ih hrest, Except.bind]
    rfl

theorem composeAll_eq_ok (envEmailUser : Option String) (c : Customer)
    (items : List LineItem) (t : ℚ) (od : Option String) (n : String)
    (h : items.all (fun i => i.price.isSome && i.subtotal.isSome) = true) :
    composeAll envEmailUser c items (some t) od n
      = .ok (composedPure envEmailUser c items t od n) := by
  simp [composeAll, itemsList, itemRows_eq_ok items h, bizHtmlRows_eq_ok items h,
    custHtmlRows_eq_ok items h, jsToFixed2, composedPure, Except.bind]
  rfl

/-- Boolean form of the `Except` success test. -/
def isOkE {α : Type} : Except String α → Bool
  | .ok _ => true
  | .error _ => false

/-- The handler's first validation test, exactly the JS condition
`!customer || !customer.name || !customer.email`. -/
def customerInvalid (p : Payload) : Bool :=
  match p.customer with
  | none => true
  | some c => !(truthyS c.name && truthyS c.email)

/-- The handler's second validation test, exactly the JS condition
`!items || items.length === 0`. -/
def itemsInvalid (p : Payload) : Bool :=
  match p.items with
  | none => true
  | some l => l.isEmpty

theorem mentions_mid (pre n post : String) : Mentions (pre ++ (n ++ post)) n :=
  ⟨pre.data, post.data, rfl⟩

theorem mentions_suffix (pre n : String) : Mentions (pre ++ n) n :=
  ⟨pre.data, [], by show (pre ++ n).data = pre.data ++ (n.data ++ []); simp⟩

theorem base36_upper :
    ∀ d : Fin 36, isUpperB36 (Char.toUpper (base36Char d)) = true := by decide

theorem handle_success_eq (u : Option String) (c : Customer)
    (items : List LineItem) (t : ℚ) (od : Option String) (ts : ℕ)
    (digits : List (Fin 36))
    (hn : truthyS c.name = true) (he : truthyS c.email = true)
    (hne : items.isEmpty = false)
    (hnum : items.all (fun i => i.price.isSome && i.subtotal.isSome) = true) :
    handleSubmitOrder u ⟨some c, some items, some t, od⟩ ts digits (.ok ()) (.ok ())
      = ⟨⟨200, .success (genOrderNumber ts digits) successMsg⟩,
         some (composedPure u c items t od (genOrderNumber ts digits))⟩ := by
  simp [handleSubmitOrder, hn, he, hne,
    composeAll_eq_ok u c items t od (genOrderNumber ts digits) hnum]

/-! ## Concrete inputs (the spec's §8 scenario and variants) -/

/-- The §8 scenario customer: name and e-mail present, every optional
field absent. -/
def janeCustomer : Customer :=
  { name := some "Jane Doe", email := some "jane@example.com",
    phone := none, address := none, studentName := none,
    specialInstructions := none }

/-- The §8 scenario line item: 2 × Sticker at $3.50, subtotal $7.00. -/
def stickerItem : LineItem :=
  { name := "Sticker", quantity := some 2,
    price := some (Rat.mk' 7 2 (by decide) (by decide)), subtotal := some 7 }

/-- The §8 scenario order date. -/
def janeDate : Option String := some "2024-01-01T00:00:00Z"

/-- A concrete `EMAIL_USER` environment value. -/
def janeUser : Option String := some "imageinboxe3@gmail.com"

/-- The §8 scenario payload: passes both validation checks. -/
def janePayload : Payload :=
  ⟨some janeCustomer, some [stickerItem], some 7, janeDate⟩

/-- A line item whose `price` and `subtotal` are absent — untouched by
validation. -/
def nopriceItem : LineItem :=
  { name := "Sticker", quantity := some 2, price := none, subtotal := none }

/-- A payload that passes both validation checks but whose item lacks
`price`/`subtotal`. -/
def nopricePayload : Payload :=
  ⟨some janeCustomer, some [nopriceItem], some 7, janeDate⟩

/-- The §8 scenario order, composed with a fixed order number. -/
def janeComposed : ComposedMessages :=
  composedPure janeUser janeCustomer [stickerItem] 7 janeDate "E3-1700000000000-ABCDEF123"

/-- A list of base-36 digits standing for one concrete value of the
random source whose base-36 expansion has at least nine digits. -/
def exDigits : List (Fin 36) := [10, 11, 12, 1, 2, 3, 33, 34, 35]

/-- A payload failing both validation rules: no customer object and no
item list. -/
def invalidPayload : Payload := ⟨none, none, some 7, janeDate⟩

/-- A payload with a valid customer and no item list. -/
def noitemsPayload : Payload := ⟨some janeCustomer, none, some 7, janeDate⟩

/-! ## The claims -/

/-- C5: for every admitted request whose payload lacks a customer
object, or whose customer name or email is empty (`''`) or absent,
the handler answers 400 with the `Missing required customer
information` body and attempts no transport submission
(`dispatched = none`); the hypothesis `customerInvalid p = true` is
exactly the JS guard `!customer || !customer.name || !customer.email`,
and nothing is assumed about the item list, so a request failing both
validation rules also lands here — the customer rule fires first. -/
theorem missing_customer_info_rejected (u : Option String) (p : Payload)
    (ts : ℕ) (digits : List (Fin 36)) (bs cs : Except String Unit)
    (h : customerInvalid p = true) :
    handleSubmitOrder u p ts digits bs cs
      = ⟨⟨400, .failure missingCustomerMsg⟩, none⟩ := by
  cases hc : p.customer with
  | none => simp [handleSubmitOrder, hc]
  | some c =>
    have h' : (truthyS c.name && truthyS c.email) = false := by
      simp only [customerInvalid, hc, Bool.not_eq_true'] at h
      exact h
    simp [handleSubmitOrder, hc, h']

/-- Witness for C5: the concrete payload with neither customer nor
items is answered 400 `Missing required customer information` with no
dispatch. -/
theorem missing_customer_info_witness :
    handleSubmitOrder janeUser invalidPayload 1700000000000 exDigits
        (.ok ()) (.ok ())
      = ⟨⟨400, .failure missingCustomerMsg⟩, none⟩ :=
  missing_customer_info_rejected janeUser invalidPayload 1700000000000 exDigits
    (.ok ()) (.ok ()) (by decide)

/-- C6: for every admitted request with a valid customer but a missing
or empty item list, the handler answers 400 with the `No items in
order` body and attempts no transport submission. -/
theorem empty_order_rejected (u : Option String) (p : Payload)
    (ts : ℕ) (digits : List (Fin 36)) (bs cs : Except String Unit)
    (hc : customerInvalid p = false) (hi : itemsInvalid p = true) :
    handleSubmitOrder u p ts digits bs cs
      = ⟨⟨400, .failure emptyOrderMsg⟩, none⟩ := by
  cases hcc : p.customer with
  | none => simp [customerInvalid, hcc] at hc
  | some c =>
    have h' : (truthyS c.name && truthyS c.email) = true := by
      simpa [customerInvalid, hcc] using hc
    cases hii : p.items with
    | none => simp [handleSubmitOrder, hcc, h', hii]
    | some l =>
      have hl : l.isEmpty = true := by simpa [itemsInvalid, hii] using hi
      simp [handleSubmitOrder, hcc, h', hii, hl]

/-- Witness for C6: the §8 customer with no item list is answered 400
`No items in order` with no dispatch. -/
theorem empty_order_witness :
    handleSubmitOrder janeUser noitemsPayload 1700000000000 exDigits
        (.ok ()) (.ok ())
      = ⟨⟨400, .failure emptyOrderMsg⟩, none⟩ :=
  empty_order_rejected janeUser noitemsPayload 1700000000000 exDigits
    (.ok ()) (.ok ()) (by decide) (by decide)

/-- C9: for every admitted, validated request whose composition does
not throw (all `.toFixed`ed numbers present) and whose two transport
submissions both succeed, the handler answers 200 with the body
`\x7b success: true, orderNumber: <the generated order number>,
message: <the fixed success string> \x7d`. -/
theorem success_response_shape (u : Option String) (c : Customer)
    (items : List LineItem) (t : ℚ) (od : Option String) (ts : ℕ)
    (digits : List (Fin 36))
    (hn : truthyS c.name = true) (he : truthyS c.email = true)
    (hne : items.isEmpty = false)
    (hnum : items.all (fun i => i.price.isSome && i.subtotal.isSome) = true) :
    (handleSubmitOrder u ⟨some c, some items, some t, od⟩ ts digits
        (.ok ()) (.ok ())).response
      = ⟨200, .success (genOrderNumber ts digits) successMsg⟩ := by
  rw [handle_success_eq u c items t od ts digits hn he hne hnum]

/-- Witness for C9: the §8 scenario payload with both sends succeeding
is answered 200 with the success body carrying the generated order
number. -/
theorem success_response_witness :
    (handleSubmitOrder janeUser ⟨some janeCustomer, some [stickerItem], some 7, janeDate⟩
        1700000000000 exDigits (.ok ()) (.ok ())).response
      = ⟨200, .success (genOrderNumber 1700000000000 exDigits) successMsg⟩ :=
  success_response_shape janeUser janeCustomer [stickerItem] 7 janeDate
    1700000000000 exDigits (by decide) (by decide) (by decide) (by decide)

/-- C2: for every admitted, validated request (composition not
throwing), if either transport submission fails — whatever its error
text, and even when the other submission succeeded — the handler
answers 500 with the fixed generic message, and never the success
body. The response is one constant for every error text, so no
transport error text reaches the client. -/
theorem dispatch_failure_generic_500 (u : Option String) (c : Customer)
    (items : List LineItem) (t : ℚ) (od : Option String) (ts : ℕ)
    (digits : List (Fin 36)) (bs cs : Except String Unit)
    (hn : truthyS c.name = true) (he : truthyS c.email = true)
    (hne : items.isEmpty = false)
    (hnum : items.all (fun i => i.price.isSome && i.subtotal.isSome) = true)
    (hfail : (∃ e, bs = .error e) ∨ (∃ e, cs = .error e)) :
    (handleSubmitOrder u ⟨some c, some items, some t, od⟩ ts digits bs cs).response
      = ⟨500, .failure genericFailureMsg⟩
    ∧ ∀ onum msg,
      (handleSubmitOrder u ⟨some c, some items, some t, od⟩ ts digits bs cs).response.body
        ≠ .success onum msg := by
  have hcomp := composeAll_eq_ok u c items t od (genOrderNumber ts digits) hnum
  have hresp :
      (handleSubmitOrder u ⟨some c, some items, some t, od⟩ ts digits bs cs).response
        = ⟨500, .failure genericFailureMsg⟩ := by
    rcases hfail with ⟨e, rfl⟩ | ⟨e, rfl⟩
    · cases cs <;> simp [handleSubmitOrder, hn, he, hne, hcomp]
    · cases bs <;> simp [handleSubmitOrder, hn, he, hne, hcomp]
  refine ⟨hresp, ?_⟩
  rw [hresp]
  intro onum msg
  simp

/-- Witness for C2: the §8 scenario payload with the business send
failing (`SMTP connection refused`) and the customer send succeeding
is answered 500 with the fixed generic message. -/
theorem dispatch_failure_witness :
    (handleSubmitOrder janeUser ⟨some janeCustomer, some [stickerItem], some 7, janeDate⟩
        1700000000000 exDigits (.error "SMTP connection refused") (.ok ())).response
      = ⟨500, .failure genericFailureMsg⟩ :=
  (dispatch_failure_generic_500 janeUser janeCustomer [stickerItem] 7 janeDate
    1700000000000 exDigits (.error "SMTP connection refused") (.ok ())
    (by decide) (by decide) (by decide) (by decide)
    (Or.inl ⟨"SMTP connection refused", rfl⟩)).1

/-- C7: the composer is deterministic — it is a pure function of the
environment sender address, the validated order fields and the order
number, so two compositions from equal inputs yield equal envelopes:
byte-identical subjects, plain-text and HTML bodies, and recipient
addresses for both the business and the customer message (the
`ComposedMessages` equality covers every field of both envelopes). -/
theorem composer_deterministic (u : Option String) (c c' : Customer)
    (items items' : List LineItem) (t t' : Option ℚ) (od od' : Option String)
    (n n' : String) (hc : c = c') (hi : items = items') (ht : t = t')
    (hod : od = od') (hn : n = n') :
    composeAll u c items t od n = composeAll u c' items' t' od' n' := by
  subst hc hi ht hod hn
  rfl

/-- Witness for C7: composing the §8 scenario order twice yields the
same envelopes. -/
theorem composer_deterministic_witness :
    composeAll janeUser janeCustomer [stickerItem] (some 7) janeDate
        "E3-1700000000000-ABCDEF123"
      = composeAll janeUser janeCustomer [stickerItem] (some 7) janeDate
        "E3-1700000000000-ABCDEF123" :=
  composer_deterministic janeUser janeCustomer janeCustomer [stickerItem]
    [stickerItem] (some 7) (some 7) janeDate janeDate
    "E3-1700000000000-ABCDEF123" "E3-1700000000000-ABCDEF123"
    rfl rfl rfl rfl rfl

/-- C1 counterexample: a payload that passes both validation checks
(customer with non-empty name and email, one line item) but whose
item lacks the unvalidated `price`/`subtotal` fields makes the
composer throw (`.toFixed` of `undefined`), and the endpoint answers
the generic 500 — so composition is not total over validated
payloads. -/
theorem composer_throws_on_missing_price :
    customerInvalid nopricePayload = false
    ∧ itemsInvalid nopricePayload = false
    ∧ isOkE (composeAll janeUser janeCustomer [nopriceItem] (some 7) janeDate
        (genOrderNumber 1700000000000 exDigits)) = false
    ∧ (handleSubmitOrder janeUser nopricePayload 1700000000000 exDigits
        (.ok ()) (.ok ())).response.status = 500 := by decide

/-- C1 (amended): for every payload that passes validation and whose
`.toFixed`ed numbers are all present (each item's `price` and
`subtotal`, and the declared total), the composer does not throw — it
yields both envelopes with all four bodies — regardless of the shape
or absence of the item quantities, the order date and the optional
customer fields, which the quantifiers leave arbitrary. -/
theorem composer_total_when_numerics_present (u : Option String)
    (c : Customer) (items : List LineItem) (t : ℚ) (od : Option String)
    (n : String)
    (_hn : truthyS c.name = true) (_he : truthyS c.email = true)
    (_hne : items.isEmpty = false)
    (hnum : items.all (fun i => i.price.isSome && i.subtotal.isSome) = true) :
    isOkE (composeAll u c items (some t) od n) = true := by
  rw [composeAll_eq_ok u c items t od n hnum]
  rfl

/-- Witness for the amended C1: the §8 scenario order composes without
error. -/
theorem composer_total_witness :
    isOkE (composeAll janeUser janeCustomer [stickerItem] (some 7) janeDate
      (genOrderNumber 1700000000000 exDigits)) = true :=
  composer_total_when_numerics_present janeUser janeCustomer [stickerItem] 7
    janeDate (genOrderNumber 1700000000000 exDigits)
    (by decide) (by decide) (by decide) (by decide)

/-- C3 counterexample: when the random source yields the value 0 (its
base-36 digit list is empty, `(0).toString(36)` is `"0"`),
`.substr(2, 9)` is the empty string, so the generated order number has
an empty suffix, not a 9-character one. -/
theorem order_number_suffix_counterexample :
    genOrderNumber 1700000000000 [] = "E3-1700000000000-"
    ∧ (randSuffix []).length ≠ 9 := by decide

/-- C3 (amended): every generated order number is
`E3-<decimal timestamp>-<suffix>` where the suffix consists of at most
nine (possibly fewer) upper-case base-36 characters — `.substr(2, 9)`
takes at most nine characters of the random value's rendering, and
takes fewer whenever that rendering has fewer than eleven characters. -/
theorem order_number_format_amended (ts : ℕ) (digits : List (Fin 36)) :
    genOrderNumber ts digits
      = "E3-" ++ (toString ts ++ ("-" ++ randSuffix digits))
    ∧ (randSuffix digits).length ≤ 9
    ∧ ∀ ch ∈ (randSuffix digits).toList, isUpperB36 ch = true := by
  refine ⟨rfl, ?_, ?_⟩
  · have h : (((((jsRandToString36 digits).toList.drop 2).take 9).map
        Char.toUpper)).length ≤ 9 := by
      rw [List.length_map, List.length_take]
      exact min_le_left _ _
    exact h
  · cases digits with
    | nil =>
      intro ch hch
      simp [randSuffix, jsRandToString36, String.toList] at hch
    | cons d ds =>
      intro ch hch
      have h0 : ("0." ++ String.mk ((d :: ds).map base36Char)).data
          = '0' :: '.' :: (d :: ds).map base36Char := rfl
      have hch' : ch ∈ (((d :: ds).map base36Char).take 9).map Char.toUpper := by
        simpa [randSuffix, jsRandToString36, String.toList, h0] using hch
      obtain ⟨c0, hc0, rfl⟩ := List.mem_map.mp hch'
      have hc1 : c0 ∈ (d :: ds).map base36Char := List.mem_of_mem_take hc0
      obtain ⟨d0, _, rfl⟩ := List.mem_map.mp hc1
      exact base36_upper d0

set_option maxRecDepth 20000 in
/-- C4 counterexample: for the validated §8 scenario order (phone
absent), the plain-text business body still renders the phone line,
with the `N/A` marker, while the HTML business body omits the phone
element entirely — the two renderings do not treat the absent field
the same way (the label's presence even differs between them). -/
theorem business_optional_field_counterexample :
    truthyS janeCustomer.phone = false
    ∧ strContains janeComposed.business.text "Phone: N/A" = true
    ∧ strContains janeComposed.business.html "Phone:" = false
    ∧ strContains janeComposed.business.text "Phone:"
        ≠ strContains janeComposed.business.html "Phone:" := by decide

/-- C4 (amended): per optional customer field, each rendering of the
business message is internally consistent, but the two renderings use
different treatments. The plain-text body always renders the field's
labelled line, substituting the marker `N/A` (`None` for special
instructions) when the field is absent or empty and the value when
present; the HTML body omits the field's element entirely when absent
or empty and includes the value when present. -/
theorem optional_fields_consistency (c : Customer) :
    (truthyS c.studentName = false →
      bizTextStudentLine c = "Student Entrepreneur: N/A" ∧ htmlStudentBlock c = "")
    ∧ (truthyS c.studentName = true →
      Mentions (bizTextStudentLine c) (jsStr c.studentName)
        ∧ Mentions (htmlStudentBlock c) (jsStr c.studentName))
    ∧ (truthyS c.phone = false →
      bizTextPhoneLine c = "Phone: N/A" ∧ htmlPhoneBlock c = "")
    ∧ (truthyS c.phone = true →
      Mentions (bizTextPhoneLine c) (jsStr c.phone)
        ∧ Mentions (htmlPhoneBlock c) (jsStr c.phone))
    ∧ (truthyS c.address = false →
      bizTextAddressLine c = "Address: N/A" ∧ htmlAddressBlock c = "")
    ∧ (truthyS c.address = true →
      Mentions (bizTextAddressLine c) (jsStr c.address)
        ∧ Mentions (htmlAddressBlock c) (jsStr c.address))
    ∧ (truthyS c.specialInstructions = false →
      bizTextSpecialSection c = "SPECIAL INSTRUCTIONS:\nNone"
        ∧ htmlSpecialSection c = "")
    ∧ (truthyS c.specialInstructions = true →
      Mentions (bizTextSpecialSection c) (jsStr c.specialInstructions)
        ∧ Mentions (htmlSpecialSection c) (jsStr c.specialInstructions)) := by
  refine ⟨fun h => ⟨?_, ?_⟩, fun h => ⟨?_, ?_⟩, fun h => ⟨?_, ?_⟩,
    fun h => ⟨?_, ?_⟩, fun h => ⟨?_, ?_⟩, fun h => ⟨?_, ?_⟩,
    fun h => ⟨?_, ?_⟩, fun h => ⟨?_, ?_⟩⟩
  · simp only [bizTextStudentLine, jsOr, h, Bool.false_eq_true, if_false]
    decide
  · simp [htmlStudentBlock, h]
  · simp only [bizTextStudentLine, jsOr, h, if_true]
    exact mentions_suffix _ _
  · simp only [htmlStudentBlock, h, if_true]
    exact mentions_mid _ _ _
  · simp only [bizTextPhoneLine, jsOr, h, Bool.false_eq_true, if_false]
    decide
  · simp [htmlPhoneBlock, h]
  · simp only [bizTextPhoneLine, jsOr, h, if_true]
    exact mentions_suffix _ _
  · simp only [htmlPhoneBlock, h, if_true]
    exact mentions_mid _ _ _
  · simp only [bizTextAddressLine, jsOr, h, Bool.false_eq_true, if_false]
    decide
  · simp [htmlAddressBlock, h]
  · simp only [bizTextAddressLine, jsOr, h, if_true]
    exact mentions_suffix _ _
  · simp only [htmlAddressBlock, h, if_true]
    exact mentions_mid _ _ _
  · simp only [bizTextSpecialSection, jsOr, h, Bool.false_eq_true, if_false]
    decide
  · simp [htmlSpecialSection, h]
  · simp only [bizTextSpecialSection, jsOr, h, if_true]
    exact mentions_suffix _ _
  · simp only [htmlSpecialSection, h, if_true]
    exact mentions_mid _ _ _

/-- C8: within one window (no rollover), for one client identity whose
counter starts at zero and is incremented once per attempt, each of
the attempts 1 through 5 is admitted (the downstream handler runs),
and the 6th attempt — prior counter 5 — is answered 429 with the
configured message, with no envelope dispatched and without the
handler (validator, composer, dispatcher) running at all. -/
theorem rate_gate_five_admit_sixth_reject (k : ℕ) (u : Option String)
    (p : Payload) (ts : ℕ) (digits : List (Fin 36))
    (bs cs : Except String Unit) (h1 : 1 ≤ k) (h5 : k ≤ 5) :
    (intakeWithGate (k - 1) u p ts digits bs cs).2.2 = true
    ∧ intakeWithGate 5 u p ts digits bs cs
        = (⟨429, .failure rateLimitMsg⟩, none, false) := by
  constructor
  · have ha : rateAdmit (k - 1) = true := by
      simp only [rateAdmit, rateMax, decide_eq_true_eq]
      omega
    simp [intakeWithGate, ha]
  · simp [intakeWithGate, rateAdmit, rateMax]

/-- Witness for C8: the 5th attempt (prior counter 4) runs the
handler; the 6th attempt (prior counter 5) is answered 429 with
nothing dispatched and the handler not run. -/
theorem rate_gate_witness :
    (intakeWithGate 4 janeUser janePayload 1700000000000 exDigits
        (.ok ()) (.ok ())).2.2 = true
    ∧ intakeWithGate 5 janeUser janePayload 1700000000000 exDigits
        (.ok ()) (.ok ())
      = (⟨429, .failure rateLimitMsg⟩, none, false) :=
  rate_gate_five_admit_sixth_reject 5 janeUser janePayload 1700000000000
    exDigits (.ok ()) (.ok ()) (by decide) (by decide)

/-- C10: on the success path exactly one order number is generated —
`genOrderNumber ts digits`, the one string the handler both returns in
the success body and hands to the composer — and that identical string
occurs in the business subject, the customer subject, and all four
message bodies of the dispatched envelopes. -/
theorem single_order_number_everywhere (u : Option String) (c : Customer)
    (items : List LineItem) (t : ℚ) (od : Option String) (ts : ℕ)
    (digits : List (Fin 36))
    (hn : truthyS c.name = true) (he : truthyS c.email = true)
    (hne : items.isEmpty = false)
    (hnum : items.all (fun i => i.price.isSome && i.subtotal.isSome) = true) :
    ∃ m : ComposedMessages,
      handleSubmitOrder u ⟨some c, some items, some t, od⟩ ts digits
          (.ok ()) (.ok ())
        = ⟨⟨200, .success (genOrderNumber ts digits) successMsg⟩, some m⟩
      ∧ Mentions m.business.subject (genOrderNumber ts digits)
      ∧ Mentions m.customer.subject (genOrderNumber ts digits)
      ∧ Mentions m.business.text (genOrderNumber ts digits)
      ∧ Mentions m.business.html (genOrderNumber ts digits)
      ∧ Mentions m.customer.text (genOrderNumber ts digits)
      ∧ Mentions m.customer.html (genOrderNumber ts digits) := by
  refine ⟨composedPure u c items t od (genOrderNumber ts digits),
    handle_success_eq u c items t od ts digits hn he hne hnum,
    ?_, ?_, ?_, ?_, ?_, ?_⟩
  · exact mentions_mid _ _ _
  · exact mentions_mid _ _ _
  · exact mentions_mid _ _ _
  · exact mentions_mid _ _ _
  · exact mentions_mid _ _ _
  · exact mentions_mid _ _ _

/-- Witness for C10: the §8 scenario order at a fixed timestamp and
random value: the response's order number is dispatched in both
subjects and all four bodies. -/
theorem single_order_number_witness :
    ∃ m : ComposedMessages,
      handleSubmitOrder janeUser ⟨some janeCustomer, some [stickerItem], some 7, janeDate⟩
          1700000000000 exDigits (.ok ()) (.ok ())
        = ⟨⟨200, .success (genOrderNumber 1700000000000 exDigits) successMsg⟩, some m⟩
      ∧ Mentions m.business.subject (genOrderNumber 1700000000000 exDigits)
      ∧ Mentions m.customer.subject (genOrderNumber 1700000000000 exDigits)
      ∧ Mentions m.business.text (genOrderNumber 1700000000000 exDigits)
      ∧ Mentions m.business.html (genOrderNumber 1700000000000 exDigits)
      ∧ Mentions m.customer.text (genOrderNumber 1700000000000 exDigits)
      ∧ Mentions m.customer.html (genOrderNumber 1700000000000 exDigits) :=
  single_order_number_everywhere janeUser janeCustomer [stickerItem] 7 janeDate
    1700000000000 exDigits (by decide) (by decide) (by decide) (by decide)

end E3
